import Mathlib

/-!
Verification development for the streaming Cassandra query pipeline
(src/main.rs): a shallow embedding of the row-conversion function
`get_cassandra_value`, the row-to-record loop, the spawned paging loop,
the bounded channel bridge and the setup phase of `run`, together with
theorems about paging, ordering, conversion and error handling.
-/

namespace CassandraQuery

/-- Model of nu_protocol's `LabeledError` as the source uses it: a message
plus an optional label text (the source also stores a span, which carries
no information relevant here). -/
structure LabeledError where
  msg : String
  labelText : Option String
deriving DecidableEq

/-- The `LabelCassandraError::label` impl for `cassandra_cpp::Error`:
`LabeledError::new("Cassandra query error").with_label(errorText, span)`. -/
def labelCass (e : String) : LabeledError :=
  ⟨"Cassandra query error", some e⟩

/-- Model of the `nu_protocol::Value` variants the source produces.
`date` carries the epoch milliseconds of the produced datetime, `binary`
carries the bytes, `error` carries the labeled error. -/
inductive NuValue where
  | int (v : Int)
  | float (v : Float)
  | string (s : String)
  | binary (b : List Nat)
  | bool (b : Bool)
  | date (ms : Int)
  | duration (ns : Int)
  | list (vs : List NuValue)
  | record (entries : List (String × NuValue))
  | error (e : LabeledError)

/-- A nu record: ordered column/value pairs. -/
abbrev Record := List (String × NuValue)

/-- Modelled from nu_protocol's `Record::insert`: if the column is already
present its value is replaced in place (the first occurrence), otherwise
the pair is appended at the end. -/
def Record.insert (r : Record) (k : String) (v : NuValue) : Record :=
  match r with
  | [] => [(k, v)]
  | p :: rest => if p.1 = k then (k, v) :: rest else p :: Record.insert rest k v

/-- The `cassandra_cpp::ValueType` tags. -/
inductive ValueType where
  | UNKNOWN
  | CUSTOM
  | ASCII
  | BIGINT
  | BLOB
  | BOOLEAN
  | COUNTER
  | DECIMAL
  | DOUBLE
  | FLOAT
  | INT
  | TEXT
  | TIMESTAMP
  | UUID
  | VARCHAR
  | VARINT
  | TIMEUUID
  | INET
  | DATE
  | TIME
  | SMALL_INT
  | TINY_INT
  | DURATION
  | LIST
  | MAP
  | SET
  | UDT
  | TUPLE
deriving DecidableEq

/-- The Debug rendering of a tag, as produced by the catch-all arm's
label text. -/
def ValueType.debugFormat : ValueType → String
  | .UNKNOWN => "UNKNOWN"
  | .CUSTOM => "CUSTOM"
  | .ASCII => "ASCII"
  | .BIGINT => "BIGINT"
  | .BLOB => "BLOB"
  | .BOOLEAN => "BOOLEAN"
  | .COUNTER => "COUNTER"
  | .DECIMAL => "DECIMAL"
  | .DOUBLE => "DOUBLE"
  | .FLOAT => "FLOAT"
  | .INT => "INT"
  | .TEXT => "TEXT"
  | .TIMESTAMP => "TIMESTAMP"
  | .UUID => "UUID"
  | .VARCHAR => "VARCHAR"
  | .VARINT => "VARINT"
  | .TIMEUUID => "TIMEUUID"
  | .INET => "INET"
  | .DATE => "DATE"
  | .TIME => "TIME"
  | .SMALL_INT => "SMALL_INT"
  | .TINY_INT => "TINY_INT"
  | .DURATION => "DURATION"
  | .LIST => "LIST"
  | .MAP => "MAP"
  | .SET => "SET"
  | .UDT => "UDT"
  | .TUPLE => "TUPLE"

/-- Model of a `cassandra_cpp::Value`: its type tag together with the
result each typed accessor the source calls would return on it.
`get_f32` stores the f32 payload already widened to f64, matching the
lossless `as f64` cast in the FLOAT arm. `children` is the sequence the
`get_set` iterator yields (`get_set_ok` its success), `mapKeys`/`mapVals`
the key and value sequences the `get_map` iterator yields pairwise
(`get_map_ok` its success). -/
inductive CassValue where
  | mk (ty : ValueType)
      (get_string : Except String String)
      (get_decimal : Except String String)
      (get_str : Except String String)
      (get_i64 : Except String Int)
      (get_i32 : Except String Int)
      (get_i16 : Except String Int)
      (get_i8 : Except String Int)
      (get_f64 : Except String Float)
      (get_f32 : Except String Float)
      (get_bool : Except String Bool)
      (get_bytes : Except String (List Nat))
      (get_set_ok : Except String Unit)
      (get_map_ok : Except String Unit)
      (children : List CassValue)
      (mapKeys : List CassValue)
      (mapVals : List CassValue)

def CassValue.ty : CassValue → ValueType
  | .mk ty .. => ty

def CassValue.get_string : CassValue → Except String String
  | .mk _ s .. => s

def CassValue.get_decimal : CassValue → Except String String
  | .mk _ _ s .. => s

def CassValue.get_str : CassValue → Except String String
  | .mk _ _ _ s .. => s

def CassValue.get_i64 : CassValue → Except String Int
  | .mk _ _ _ _ n .. => n

def CassValue.get_i32 : CassValue → Except String Int
  | .mk _ _ _ _ _ n .. => n

def CassValue.get_i16 : CassValue → Except String Int
  | .mk _ _ _ _ _ _ n .. => n

def CassValue.get_i8 : CassValue → Except String Int
  | .mk _ _ _ _ _ _ _ n .. => n

def CassValue.get_f64 : CassValue → Except String Float
  | .mk _ _ _ _ _ _ _ _ x .. => x

def CassValue.get_f32 : CassValue → Except String Float
  | .mk _ _ _ _ _ _ _ _ _ x .. => x

def CassValue.get_bool : CassValue → Except String Bool
  | .mk _ _ _ _ _ _ _ _ _ _ b .. => b

def CassValue.get_bytes : CassValue → Except String (List Nat)
  | .mk _ _ _ _ _ _ _ _ _ _ _ b .. => b

def CassValue.get_set_ok : CassValue → Except String Unit
  | .mk _ _ _ _ _ _ _ _ _ _ _ _ u .. => u

def CassValue.get_map_ok : CassValue → Except String Unit
  | .mk _ _ _ _ _ _ _ _ _ _ _ _ _ u .. => u

def CassValue.children : CassValue → List CassValue
  | .mk _ _ _ _ _ _ _ _ _ _ _ _ _ _ c .. => c

def CassValue.mapKeys : CassValue → List CassValue
  | .mk _ _ _ _ _ _ _ _ _ _ _ _ _ _ _ k _ => k

def CassValue.mapVals : CassValue → List CassValue
  | .mk _ _ _ _ _ _ _ _ _ _ _ _ _ _ _ _ v => v

/-- A failing accessor result: the driver rejects an accessor applied to
a value of the wrong type. -/
def errS : Except String String := Except.error "wrong type"

def errI : Except String Int := Except.error "wrong type"

def errF : Except String Float := Except.error "wrong type"

def errB : Except String Bool := Except.error "wrong type"

def errBy : Except String (List Nat) := Except.error "wrong type"

def errU : Except String Unit := Except.error "wrong type"

/-- A value of tag `ty` on which every accessor fails. -/
def opaqueVal (ty : ValueType) : CassValue :=
  .mk ty errS errS errS errI errI errI errI errF errF errB errBy errU errU [] [] []

/-- A value of tag `ty` whose `get_i64` accessor returns `n`. -/
def i64Val (ty : ValueType) (n : Int) : CassValue :=
  .mk ty errS errS errS (.ok n) errI errI errI errF errF errB errBy errU errU [] [] []

/-- A value of tag `ty` whose `get_string` accessor returns `s`. -/
def stringVal (ty : ValueType) (s : String) : CassValue :=
  .mk ty (.ok s) errS errS errI errI errI errI errF errF errB errBy errU errU [] [] []

/-- A textual value usable as a map key: `get_str` returns `s`. -/
def strKeyVal (s : String) : CassValue :=
  .mk .TEXT (.ok s) errS (.ok s) errI errI errI errI errF errF errB errBy errU errU [] [] []

/-- A MAP-typed value whose `get_map` iterator yields the keys `ks` paired
with the values `vs`. -/
def mapVal (ks vs : List CassValue) : CassValue :=
  .mk .MAP errS errS errS errI errI errI errI errF errF errB errBy errU (.ok ()) [] ks vs

/-- A LIST-typed value whose `get_set` iterator yields `cs`. -/
def listVal (cs : List CassValue) : CassValue :=
  .mk .LIST errS errS errS errI errI errI errI errF errF errB errBy (.ok ()) errU cs [] []

/-- Modelled from chrono's `DateTime::from_timestamp_millis`: returns the
input when it lies inside chrono's representable range (about ±262,000
years around the epoch), `none` (and hence a panic at the `expect` call
site) outside it. The bounds follow that documented range; the
development only relies on values that are far outside it, such as the
maximum 64-bit integer, being rejected. -/
def chronoMinMillis : Int := -8334601228800000

def chronoMaxMillis : Int := 8210266876799999

def fromTimestampMillis (v : Int) : Option Int :=
  if chronoMinMillis ≤ v ∧ v ≤ chronoMaxMillis then some v else none

def hexDigit (n : Nat) : Char :=
  if n < 10 then Char.ofNat (48 + n) else Char.ofNat (87 + n)

def byteHex (b : Nat) : String :=
  String.mk [hexDigit (b / 16 % 16), hexDigit (b % 16)]

def bytesHex (bs : List Nat) : String :=
  String.join (bs.map byteHex)

/-- The canonical hyphenated lowercase rendering of a 16-byte uuid, as
`uuid::Uuid::to_string` produces. -/
def uuidToString (b : List Nat) : String :=
  bytesHex (b.take 4) ++ "-" ++ bytesHex ((b.drop 4).take 2) ++ "-" ++
    bytesHex ((b.drop 6).take 2) ++ "-" ++ bytesHex ((b.drop 8).take 2) ++ "-" ++
    bytesHex (b.drop 10)

/-- Modelled from `uuid::Uuid::from_slice`: succeeds exactly on 16-byte
slices, otherwise reports a length error. -/
def uuidFromSlice (b : List Nat) : Except String (List Nat) :=
  if b.length = 16 then .ok b else .error "invalid length: expected 16 bytes"

/-- Sequential evaluation of a fallible computation over a list, stopping
at the first failure (`none` models a panic): the shape of every
iterator-collect and per-element loop in the source. -/
def mapMopt {a b : Type} (f : a → Option b) : List a → Option (List b)
  | [] => some []
  | x :: xs =>
    match f x, mapMopt f xs with
    | some y, some ys => some (y :: ys)
    | _, _ => none

/-- `collect::<Result<Vec<_>, _>>()`: sequential evaluation stopping at
the first error. -/
def mapExc {e a b : Type} (f : a → Except e b) : List a → Except e (List b)
  | [] => .ok []
  | x :: xs =>
    match f x with
    | .error err => .error err
    | .ok y =>
      match mapExc f xs with
      | .error err => .error err
      | .ok ys => .ok (y :: ys)

/-- The final `unwrap_or_else(|err| Value::error(err, span))` of
`get_cassandra_value`. -/
def unwrapValue : Except LabeledError NuValue → NuValue
  | .ok v => v
  | .error e => .error e

/-- `key.get_str().unwrap_or("<error>")` in the MAP arm. -/
def keyString (k : CassValue) : String :=
  match k.get_str with
  | .ok s => s
  | .error _ => "<error>"

/-- The record the MAP arm accumulates: one `Record::insert` per key/value
pair, in iterator order. -/
def mkMapRecord (ks : List String) (vs : List NuValue) : Record :=
  (ks.zip vs).foldl (fun r kv => Record.insert r kv.1 kv.2) []

mutual

/-- Shallow embedding of `get_cassandra_value` (src/main.rs lines
136-229) before its final `unwrap_or_else`: the Result each match arm
produces, with `none` modelling the panic raised by
`from_timestamp_millis(v).expect("bad date")` in the TIMESTAMP arm. -/
def convert_arm : CassValue → Option (Except LabeledError NuValue)
  | .mk ty s_string s_decimal _s_str s_i64 s_i32 s_i16 s_i8 s_f64 s_f32 s_bool s_bytes set_ok map_ok children mapKs mapVs =>
    match ty with
    | .ASCII => some ((s_string.mapError labelCass).map NuValue.string)
    | .BIGINT => some ((s_i64.mapError labelCass).map NuValue.int)
    | .BLOB => some ((s_bytes.mapError labelCass).map NuValue.binary)
    | .BOOLEAN => some ((s_bool.mapError labelCass).map NuValue.bool)
    | .COUNTER => some ((s_i64.mapError labelCass).map NuValue.int)
    | .DECIMAL => some ((s_decimal.mapError labelCass).map NuValue.string)
    | .DOUBLE => some ((s_f64.mapError labelCass).map NuValue.float)
    | .FLOAT => some ((s_f32.mapError labelCass).map NuValue.float)
    | .INT => some ((s_i32.mapError labelCass).map NuValue.int)
    | .TEXT => some ((s_string.mapError labelCass).map NuValue.string)
    | .TIMESTAMP =>
      match s_i64.mapError labelCass with
      | .error e => some (.error e)
      | .ok n =>
        match fromTimestampMillis n with
        | some m => some (.ok (NuValue.date m))
        | none => none
    | .UUID =>
      some (((s_bytes.mapError labelCass).bind (fun b =>
        match uuidFromSlice b with
        | .ok u => .ok u
        | .error e => .error ⟨e, none⟩)).map (fun u => NuValue.string (uuidToString u)))
    | .VARCHAR => some ((s_string.mapError labelCass).map NuValue.string)
    | .VARINT => some ((s_i64.mapError labelCass).map NuValue.int)
    | .TIMEUUID => some ((s_string.mapError labelCass).map NuValue.string)
    | .INET => some ((s_string.mapError labelCass).map NuValue.string)
    | .DATE => some ((s_string.mapError labelCass).map NuValue.string)
    | .TIME => some ((s_string.mapError labelCass).map NuValue.string)
    | .SMALL_INT => some ((s_i16.mapError labelCass).map NuValue.int)
    | .TINY_INT => some ((s_i8.mapError labelCass).map NuValue.int)
    | .DURATION => some ((s_i64.mapError labelCass).map NuValue.duration)
    | .LIST | .SET | .TUPLE =>
      match set_ok.mapError labelCass with
      | .error e => some (.error e)
      | .ok _ => (convert_list children).map (fun l => .ok (NuValue.list l))
    | .MAP =>
      match map_ok.mapError labelCass with
      | .error e => some (.error e)
      | .ok _ =>
        (convert_list mapVs).map (fun nvs =>
          .ok (NuValue.record (mkMapRecord (mapKs.map keyString) nvs)))
    | .UNKNOWN => some (.error ⟨"Unsupported Cassandra type", some (ValueType.debugFormat .UNKNOWN)⟩)
    | .CUSTOM => some (.error ⟨"Unsupported Cassandra type", some (ValueType.debugFormat .CUSTOM)⟩)
    | .UDT => some (.error ⟨"Unsupported Cassandra type", some (ValueType.debugFormat .UDT)⟩)

/-- The recursion of the LIST/SET/TUPLE and MAP arms over the contained
values, in iterator order; `none` propagates a panic. -/
def convert_list : List CassValue → Option (List NuValue)
  | [] => some []
  | v :: vs =>
    match convert_arm v, convert_list vs with
    | some r, some rest => some (unwrapValue r :: rest)
    | _, _ => none

end

/-- `get_cassandra_value`: the per-arm result with the final
error-to-value fallback applied; `none` models the TIMESTAMP panic. -/
def get_cassandra_value (v : CassValue) : Option NuValue :=
  (convert_arm v).map unwrapValue

/-- One row, as the producer reads it: the `get_column` result for each
column index. -/
abbrev CassRow := List (Except String CassValue)

/-- `row.get_column(idx).label(span)`: an out-of-range index fails inside
the driver. -/
def getColumn (row : CassRow) (idx : Nat) : Except LabeledError CassValue :=
  ((row.get? idx).getD (.error "column index out of bounds")).mapError labelCass

/-- The value inserted for one column (lines 97-101): the conversion of
the cell, or `Value::error` when `get_column` failed; `none` models a
conversion panic. -/
def colValue (row : CassRow) (idx : Nat) : Option NuValue :=
  match getColumn row idx with
  | .error e => some (NuValue.error e)
  | .ok v => get_cassandra_value v

/-- The record built for one row (lines 95-103): one `Record::insert` per
column descriptor, in order. -/
def rowToRecord (cols : List String) (row : CassRow) : Option Record :=
  (mapMopt (colValue row) (List.range cols.length)).map
    (fun vals => (cols.zip vals).foldl (fun r kv => Record.insert r kv.1 kv.2) [])

/-- One fetched page: its rows plus the `paging_state_token()` result the
driver reports for it. -/
structure Page where
  rows : List CassRow
  token : Except String (Option Nat)

/-- The outcome of one attempt to move to the next page: the token
applied and the re-execution succeeded yielding a page, or
`set_paging_state_token` failed, or the re-execution failed. -/
inductive FetchOutcome where
  | ok (p : Page)
  | tokenErr (e : String)
  | execErr (e : String)

/-- Whether send attempt number `n` succeeds: the consumer side of the
channel is dropped starting at attempt `closedAt` (never, when `none`);
a sync_channel send fails exactly when the receiver is gone. -/
def sendOk (closedAt : Option Nat) (n : Nat) : Bool :=
  match closedAt with
  | none => true
  | some k => decide (n < k)

/-- The inner row loop (lines 94-107): build each row's record and send
it; a failed send breaks out of the row loop (and only out of it).
Returns the values actually delivered and the updated send-attempt
counter; `none` models a conversion panic. -/
def sendRows (closedAt : Option Nat) (cols : List String) :
    List CassRow → Nat → Option (List NuValue × Nat)
  | [], n => some ([], n)
  | row :: rest, n =>
    (rowToRecord cols row).bind (fun rec =>
      if sendOk closedAt n then
        (sendRows closedAt cols rest (n + 1)).map
          (fun p => (NuValue.record rec :: p.1, p.2))
      else some ([], n + 1))

/-- The spawned paging loop (lines 91-129): drain the current page's rows,
then read the paging token; on `Ok(Some(token))` consume the next fetch
outcome (send a single error value and stop on failure, install the new
page and continue on success), otherwise stop. Returns the delivered
values, the total send attempts, and the number of `execute` (page fetch)
calls; `none` models a conversion panic. An empty outcome list with a
token still present ends the loop; well-formed runs supply an outcome for
every token. -/
def pagingLoop (closedAt : Option Nat) (cols : List String) :
    List FetchOutcome → Page → Nat → Nat → Option (List NuValue × Nat × Nat)
  | [], page, n, f =>
    (sendRows closedAt cols page.rows n).bind (fun sr => some (sr.1, sr.2, f))
  | o :: rest, page, n, f =>
    (sendRows closedAt cols page.rows n).bind (fun sr =>
      match page.token with
      | .ok (some _) =>
        match o with
        | .ok p =>
          (pagingLoop closedAt cols rest p sr.2 (f + 1)).map
            (fun r => (sr.1 ++ r.1, r.2))
        | .tokenErr e =>
          if sendOk closedAt sr.2 then
            some (sr.1 ++ [NuValue.error (labelCass e)], sr.2 + 1, f)
          else
            some (sr.1, sr.2 + 1, f)
        | .execErr e =>
          if sendOk closedAt sr.2 then
            some (sr.1 ++ [NuValue.error (labelCass e)], sr.2 + 1, f + 1)
          else
            some (sr.1, sr.2 + 1, f + 1)
      | _ => some (sr.1, sr.2, f))

/-- One complete producer run: the first page (from the initial execute),
the scripted outcomes of the subsequent fetch attempts, and the attempt
index from which sends fail because the consumer dropped the receiver. -/
structure RunEnv where
  firstPage : Page
  nexts : List FetchOutcome
  closedAt : Option Nat

/-- What a producer run leaves behind: the values the consumer received,
the number of send attempts, and the number of page fetches issued after
the first page. -/
structure RunResult where
  delivered : List NuValue
  attempts : Nat
  fetches : Nat

/-- The spawned task of `run`, start to finish: the session and cluster
handle are released exactly when this function returns a result
(`drop(session); drop(cluster)` after the loop); `none` models a panic,
which also tears both down. -/
def runProducer (cols : List String) (env : RunEnv) : Option RunResult :=
  (pagingLoop env.closedAt cols env.nexts env.firstPage 0 0).map
    (fun r => ⟨r.1, r.2.1, r.2.2⟩)

/-- The channel bound: `sync_channel(1024)` (line 84). -/
def chanBound : Nat := 1024

/-- State of the bounded channel: the queued records and whether the
receiving side has been dropped. -/
structure ChanState where
  buffered : List NuValue
  closed : Bool

/-- Modelled from `std::sync::mpsc::sync_channel(chanBound)`: a send
enqueues only while the buffer holds fewer than `chanBound` messages (a
producer at the bound blocks instead of enqueueing, so no such step
exists); a receive dequeues the oldest message; the receiver may be
dropped at any time. -/
inductive chanStep : ChanState → ChanState → Prop
  | send (s : ChanState) (v : NuValue) (ho : s.closed = false)
      (hc : s.buffered.length < chanBound) : chanStep s ⟨s.buffered ++ [v], false⟩
  | recv (s : ChanState) (v : NuValue) (rest : List NuValue)
      (h : s.buffered = v :: rest) : chanStep s ⟨rest, s.closed⟩
  | close (s : ChanState) : chanStep s ⟨s.buffered, true⟩

/-- The channel states reachable from the freshly created channel. -/
inductive chanReachable : ChanState → Prop
  | init : chanReachable ⟨[], false⟩
  | step {s t : ChanState} : chanReachable s → chanStep s t → chanReachable t

/-- The setup phase of `run` (lines 70-89), as the sequence of fallible
steps it takes before spawning the producer, each modelled by its result. -/
structure SetupEnv where
  queryArg : Except LabeledError String
  setContactPoints : Except String Unit
  connect : Except String Unit
  setPagingSize : Except String Unit
  execute : Except String Unit
  columnCount : Nat
  columnName : Nat → Except String String

/-- What `run` hands back to the caller: an error, or the stream (the
spawned producer's receiver) together with the column names. -/
inductive SetupResult where
  | err (e : LabeledError)
  | stream (columns : List String)

/-- `run` up to the spawn: every `?` returns the labeled error to the
caller at once; only when every step succeeds is the producer spawned and
a stream returned. -/
def runSetup (env : SetupEnv) : SetupResult :=
  match env.queryArg with
  | .error e => .err e
  | .ok _ =>
    match env.setContactPoints with
    | .error e => .err (labelCass e)
    | .ok _ =>
      match env.connect with
      | .error e => .err (labelCass e)
      | .ok _ =>
        match env.setPagingSize with
        | .error e => .err (labelCass e)
        | .ok _ =>
          match env.execute with
          | .error e => .err (labelCass e)
          | .ok _ =>
            match mapExc (fun i => (env.columnName i).mapError labelCass)
                (List.range env.columnCount) with
            | .error e => .err e
            | .ok cols => .stream cols

/-- Whether a produced value is the String variant. -/
def NuValue.isString : NuValue → Bool
  | .string _ => true
  | _ => false

/-- The records a page's rows produce, in page-internal order (`none`
when converting some row panics). -/
def pageRecords (cols : List String) (p : Page) : Option (List NuValue) :=
  mapMopt (fun r => (rowToRecord cols r).map NuValue.record) p.rows

/-- Total number of rows across a list of pages. -/
def rowsCount : List Page → Nat
  | [] => 0
  | p :: ps => p.rows.length + rowsCount ps

/-- A token chain that ends cleanly: every page before the last reports a
paging token, the last reports none. -/
def tokChainEnd : Page → List Page → Prop
  | p, [] => p.token = .ok none
  | p, q :: rest => (∃ t, p.token = .ok (some t)) ∧ tokChainEnd q rest

/-- A token chain in which every page, the last included, reports a
paging token (so one more fetch is attempted after the last page). -/
def tokChainAll : Page → List Page → Prop
  | p, [] => ∃ t, p.token = .ok (some t)
  | p, q :: rest => (∃ t, p.token = .ok (some t)) ∧ tokChainAll q rest

/-- The error string a failed fetch outcome carries. -/
def failMsg : FetchOutcome → Option String
  | .ok _ => none
  | .tokenErr e => some e
  | .execErr e => some e

/-- How many `execute` calls a failed fetch outcome costs: a failed
token application happens before re-execution, a failed re-execution is
itself an `execute` call. -/
def failFetch : FetchOutcome → Nat
  | .execErr _ => 1
  | _ => 0

/-! ## Lemmas -/

theorem convert_list_eq_mapM (vs : List CassValue) :
    convert_list vs = mapMopt get_cassandra_value vs := by
  induction vs with
  | nil => rfl
  | cons v vs ih =>
    rw [convert_list, mapMopt, ih, get_cassandra_value]
    cases convert_arm v <;> cases mapMopt get_cassandra_value vs <;> rfl

theorem length_of_mapM {α β : Type} (f : α → Option β) :
    ∀ (l : List α) (l' : List β), mapMopt f l = some l' → l'.length = l.length := by
  intro l
  induction l with
  | nil => intro l' h; simp [mapMopt] at h; simp [← h]
  | cons a as ih =>
    intro l' h
    rw [mapMopt] at h
    cases hf : f a with
    | none => simp [hf] at h
    | some b =>
      cases hrest : mapMopt f as with
      | none => simp [hf, hrest] at h
      | some bs =>
        simp [hf, hrest] at h
        subst h
        simp [ih bs hrest]

theorem Record.insert_of_not_mem (k : String) (v : NuValue) :
    ∀ (r : Record), (∀ p ∈ r, p.1 ≠ k) → Record.insert r k v = r ++ [(k, v)] := by
  intro r
  induction r with
  | nil => intro _; rfl
  | cons p rest ih =>
    intro h
    rw [Record.insert]
    rw [if_neg (h p (by simp))]
    simp [ih (fun q hq => h q (by simp [hq]))]

theorem foldl_insert_nodup :
    ∀ (l : List (String × NuValue)) (r : Record),
      (l.map Prod.fst).Nodup → (∀ p ∈ r, p.1 ∉ l.map Prod.fst) →
      l.foldl (fun r kv => Record.insert r kv.1 kv.2) r = r ++ l := by
  intro l
  induction l with
  | nil => intro r _ _; simp
  | cons kv rest ih =>
    intro r hnd hdis
    simp only [List.foldl_cons]
    rw [Record.insert_of_not_mem kv.1 kv.2 r
      (fun p hp => fun he => hdis p hp (by simp [he]))]
    rw [ih (r ++ [(kv.1, kv.2)]) (by simp at hnd; exact hnd.2)]
    · simp
    · intro p hp
      rcases List.mem_append.mp hp with hr | hk
      · exact fun hin => hdis p hr (by simp [hin])
      · simp at hk
        simp at hnd
        simp [hk]
        exact hnd.1

theorem sendRows_open (cols : List String) :
    ∀ (rows : List CassRow) (vs : List NuValue) (n : Nat),
      mapMopt (fun r => (rowToRecord cols r).map NuValue.record) rows = some vs →
      sendRows none cols rows n = some (vs, n + rows.length) := by
  intro rows
  induction rows with
  | nil =>
    intro vs n h
    simp [mapMopt] at h
    simp [sendRows, ← h]
  | cons row rest ih =>
    intro vs n h
    rw [mapMopt] at h
    cases hr : rowToRecord cols row with
    | none => simp [hr] at h
    | some rec =>
      cases hrest : mapMopt (fun r => (rowToRecord cols r).map NuValue.record) rest with
      | none => simp [hr, hrest] at h
      | some vs2 =>
        simp [hr, hrest] at h
        subst h
        rw [sendRows]
        simp [hr, sendOk, ih vs2 (n + 1) hrest]
        omega

theorem pagingLoop_chain_end (cols : List String) :
    ∀ (ps : List Page) (page : Page) (n f : Nat) (vs : List NuValue)
      (vss : List (List NuValue)),
      tokChainEnd page ps →
      pageRecords cols page = some vs →
      mapMopt (pageRecords cols) ps = some vss →
      pagingLoop none cols (ps.map .ok) page n f =
        some (vs ++ vss.flatten, n + rowsCount (page :: ps), f + ps.length) := by
  intro ps
  induction ps with
  | nil =>
    intro page n f vs vss htok hpage hps
    simp [mapMopt] at hps
    simp only [List.map_nil]
    rw [pagingLoop]
    rw [sendRows_open cols page.rows vs n hpage]
    rw [tokChainEnd] at htok
    subst hps
    simp [htok, rowsCount]
  | cons q qs ih =>
    intro page n f vs vss htok hpage hps
    rw [tokChainEnd] at htok
    obtain ⟨⟨t, ht⟩, htok2⟩ := htok
    rw [mapMopt] at hps
    cases hq : pageRecords cols q with
    | none => simp [hq] at hps
    | some vsq =>
      cases hqs : mapMopt (pageRecords cols) qs with
      | none => simp [hq, hqs] at hps
      | some vss2 =>
        simp [hq, hqs] at hps
        subst hps
        simp only [List.map_cons]
        rw [pagingLoop]
        rw [sendRows_open cols page.rows vs n hpage]
        simp [ht, ih q (n + page.rows.length) (f + 1) vsq vss2 htok2 hq hqs, rowsCount]
        omega

theorem pagingLoop_chain_fail (cols : List String) :
    ∀ (ps : List Page) (page : Page) (n f : Nat) (vs : List NuValue)
      (vss : List (List NuValue)) (o : FetchOutcome) (e : String)
      (rest : List FetchOutcome),
      failMsg o = some e →
      tokChainAll page ps →
      pageRecords cols page = some vs →
      mapMopt (pageRecords cols) ps = some vss →
      pagingLoop none cols (ps.map .ok ++ o :: rest) page n f =
        some (vs ++ vss.flatten ++ [NuValue.error (labelCass e)],
          n + rowsCount (page :: ps) + 1, f + ps.length + failFetch o) := by
  intro ps
  induction ps with
  | nil =>
    intro page n f vs vss o e rest hfail htok hpage hps
    simp [mapMopt] at hps
    subst hps
    rw [tokChainAll] at htok
    obtain ⟨t, ht⟩ := htok
    simp only [List.map_nil, List.nil_append]
    rw [pagingLoop]
    rw [sendRows_open cols page.rows vs n hpage]
    cases o with
    | ok p => simp [failMsg] at hfail
    | tokenErr e2 =>
      simp [failMsg] at hfail
      subst hfail
      simp [ht, sendOk, rowsCount, failFetch]
    | execErr e2 =>
      simp [failMsg] at hfail
      subst hfail
      simp [ht, sendOk, rowsCount, failFetch]
  | cons q qs ih =>
    intro page n f vs vss o e rest hfail htok hpage hps
    rw [tokChainAll] at htok
    obtain ⟨⟨t, ht⟩, htok2⟩ := htok
    rw [mapMopt] at hps
    cases hq : pageRecords cols q with
    | none => simp [hq] at hps
    | some vsq =>
      cases hqs : mapMopt (pageRecords cols) qs with
      | none => simp [hq, hqs] at hps
      | some vss2 =>
        simp [hq, hqs] at hps
        subst hps
        simp only [List.map_cons, List.cons_append]
        rw [pagingLoop]
        rw [sendRows_open cols page.rows vs n hpage]
        simp [ht, ih q (n + page.rows.length) (f + 1) vsq vss2 o e rest hfail htok2 hq hqs,
          rowsCount]
        omega

/-! ## Claims -/

/-- C5: for a query fetched across multiple pages whose token chain ends
cleanly, the consumer observes exactly the pages' records in page fetch
order and, within a page, in row order: the delivered sequence is the
concatenation of the per-page record lists, with no duplicates, gaps or
reordering, one fetch per page beyond the first. -/
theorem claim_C5_row_order (cols : List String) (page : Page) (ps : List Page)
    (vs : List NuValue) (vss : List (List NuValue))
    (htok : tokChainEnd page ps)
    (hpage : pageRecords cols page = some vs)
    (hps : mapMopt (pageRecords cols) ps = some vss) :
    runProducer cols ⟨page, ps.map .ok, none⟩ =
      some ⟨vs ++ vss.flatten, rowsCount (page :: ps), ps.length⟩ := by
  rw [runProducer]
  simp [pagingLoop_chain_end cols ps page 0 0 vs vss htok hpage hps]

/-- Witness for C5: three rows numbered 1, 2, 3 split across two pages are
delivered ascending, in page order then row order. -/
theorem claim_C5_witness :
    runProducer ["n"]
      ⟨⟨[[.ok (i64Val .BIGINT 1)], [.ok (i64Val .BIGINT 2)]], .ok (some 7)⟩,
        [.ok ⟨[[.ok (i64Val .BIGINT 3)]], .ok none⟩], none⟩ =
      some ⟨[.record [("n", .int 1)], .record [("n", .int 2)],
        .record [("n", .int 3)]], 3, 1⟩ := by
  have h := claim_C5_row_order ["n"]
    ⟨[[.ok (i64Val .BIGINT 1)], [.ok (i64Val .BIGINT 2)]], .ok (some 7)⟩
    [⟨[[.ok (i64Val .BIGINT 3)]], .ok none⟩]
    [.record [("n", .int 1)], .record [("n", .int 2)]]
    [[.record [("n", .int 3)]]]
    ⟨⟨7, rfl⟩, rfl⟩ rfl rfl
  simpa using h

/-- C3: when applying the continuation token or re-executing the statement
for the next page fails, exactly one terminal error record is sent after
the rows of the prior pages, the loop then ends (nothing is delivered
after it), the prior pages' rows are delivered intact, and the failing
fetch is attempted exactly once (fetch count `ps.length + failFetch o`:
one per successful page plus at most the one failed re-execution). -/
theorem claim_C3_fetch_failure (cols : List String) (page : Page) (ps : List Page)
    (vs : List NuValue) (vss : List (List NuValue)) (o : FetchOutcome) (e : String)
    (rest : List FetchOutcome)
    (hfail : failMsg o = some e)
    (htok : tokChainAll page ps)
    (hpage : pageRecords cols page = some vs)
    (hps : mapMopt (pageRecords cols) ps = some vss) :
    runProducer cols ⟨page, ps.map .ok ++ o :: rest, none⟩ =
      some ⟨vs ++ vss.flatten ++ [NuValue.error (labelCass e)],
        rowsCount (page :: ps) + 1, ps.length + failFetch o⟩ := by
  rw [runProducer]
  simp [pagingLoop_chain_fail cols ps page 0 0 vs vss o e rest hfail htok hpage hps]

/-- Witness for C3: two pages are delivered intact, the re-execution for
the third fails, and the stream carries the two rows then exactly one
terminal error record. -/
theorem claim_C3_witness :
    runProducer ["n"]
      ⟨⟨[[.ok (i64Val .BIGINT 1)]], .ok (some 0)⟩,
        [.ok ⟨[[.ok (i64Val .BIGINT 2)]], .ok (some 1)⟩, .execErr "boom"], none⟩ =
      some ⟨[.record [("n", .int 1)], .record [("n", .int 2)],
        .error (labelCass "boom")], 3, 2⟩ := by
  have h := claim_C3_fetch_failure ["n"]
    ⟨[[.ok (i64Val .BIGINT 1)]], .ok (some 0)⟩
    [⟨[[.ok (i64Val .BIGINT 2)]], .ok (some 1)⟩]
    [.record [("n", .int 1)]]
    [[.record [("n", .int 2)]]]
    (.execErr "boom") "boom" []
    rfl ⟨⟨0, rfl⟩, 1, rfl⟩ rfl rfl
  simpa using h

/-- C10: when reading the continuation token from an exhausted page itself
returns an error, the producer behaves exactly as if the token were
absent: the run is indistinguishable from a normal end of results, and
with a draining consumer the page's rows are delivered with no terminal
error record and no further fetch. -/
theorem claim_C10_token_error_clean_end (cols : List String) (rows : List CassRow)
    (nexts : List FetchOutcome) (closedAt : Option Nat) (e : String) :
    runProducer cols ⟨⟨rows, .error e⟩, nexts, closedAt⟩ =
      runProducer cols ⟨⟨rows, .ok none⟩, nexts, closedAt⟩ ∧
    (∀ vs, pageRecords cols ⟨rows, .error e⟩ = some vs →
      runProducer cols ⟨⟨rows, .error e⟩, nexts, none⟩ =
        some ⟨vs, rows.length, 0⟩) := by
  constructor
  · cases nexts <;> rfl
  · intro vs h
    simp only [pageRecords] at h
    rw [runProducer]
    cases nexts with
    | nil =>
      rw [pagingLoop]
      rw [sendRows_open cols rows vs 0 h]
      simp
    | cons o rest =>
      rw [pagingLoop]
      rw [sendRows_open cols rows vs 0 h]
      simp

/-- Witness for C10: a one-row page whose token read errors delivers its
row and ends cleanly, with no error record and no fetch. -/
theorem claim_C10_witness :
    runProducer ["n"] ⟨⟨[[.ok (i64Val .BIGINT 1)]], .error "token read failed"⟩, [], none⟩ =
      some ⟨[.record [("n", .int 1)]], 1, 0⟩ := by
  have h := (claim_C10_token_error_clean_end ["n"] [[.ok (i64Val .BIGINT 1)]] [] none
    "token read failed").2 [.record [("n", .int 1)]] rfl
  simpa using h

/-- C1 (failing input): the consumer drops its end before the first send,
the first page's send fails, yet the producer still applies the paging
token and issues the next page fetch (fetch count 1), only stopping when
the token chain runs out: the failed send's `break` leaves only the inner
row loop, not the paging loop. -/
theorem claim_C1_eval :
    runProducer ["n"]
      ⟨⟨[[.ok (i64Val .BIGINT 1)]], .ok (some 0)⟩,
        [.ok ⟨[[.ok (i64Val .BIGINT 2)]], .ok none⟩], some 0⟩ =
      some ⟨[], 2, 1⟩ := by
  rfl

/-- C8: in every reachable state of the bounded channel, the number of
buffered records never exceeds the capacity 1024: a send is only possible
below the bound (a producer at the bound blocks until the consumer
drains), so a consumer that stops draining never causes unbounded
growth. -/
theorem claim_C8_bounded (s : ChanState) (h : chanReachable s) :
    s.buffered.length ≤ chanBound := by
  induction h with
  | init => simp
  | step hs hstep ih =>
    cases hstep with
    | send v ho hc =>
      simp only [List.length_append, List.length_cons, List.length_nil]
      omega
    | recv v rest hrec =>
      rw [hrec] at ih
      simp only [List.length_cons] at ih
      simpa using Nat.le_of_succ_le ih
    | close => simpa using ih

/-- Witness for C8: a channel state holding one record is reachable and
within the bound. -/
theorem claim_C8_witness :
    chanReachable ⟨[NuValue.int 1], false⟩ ∧
      ([NuValue.int 1] : List NuValue).length ≤ chanBound := by
  have hr : chanReachable ⟨[NuValue.int 1], false⟩ :=
    chanReachable.step chanReachable.init
      (chanStep.send ⟨[], false⟩ (NuValue.int 1) rfl (by simp [chanBound]))
  exact ⟨hr, claim_C8_bounded ⟨[NuValue.int 1], false⟩ hr⟩

/-- C9: a connection failure, a failure of the initial statement
execution, or a failure reading the column metadata each abort `run`
before any row is produced: the labeled error is returned directly and no
stream is handed back; conversely a stream is only returned when
connection and initial execution both succeeded. -/
theorem claim_C9_abort_before_rows (env : SetupEnv) (e : String) :
    ((∃ q, env.queryArg = .ok q) → env.setContactPoints = .ok () →
      env.connect = .error e → runSetup env = .err (labelCass e)) ∧
    ((∃ q, env.queryArg = .ok q) → env.setContactPoints = .ok () →
      env.connect = .ok () → env.setPagingSize = .ok () →
      env.execute = .error e → runSetup env = .err (labelCass e)) ∧
    ((∃ q, env.queryArg = .ok q) → env.setContactPoints = .ok () →
      env.connect = .ok () → env.setPagingSize = .ok () → env.execute = .ok () →
      mapExc (fun i => (env.columnName i).mapError labelCass)
          (List.range env.columnCount) = .error (labelCass e) →
      runSetup env = .err (labelCass e)) ∧
    (∀ cols, runSetup env = .stream cols →
      (∃ u, env.connect = .ok u) ∧ ∃ u, env.execute = .ok u) := by
  refine ⟨?_, ?_, ?_, ?_⟩
  · rintro ⟨q, hq⟩ hcp hc
    rw [runSetup, hq, hcp, hc]
  · rintro ⟨q, hq⟩ hcp hc hpg he
    rw [runSetup, hq, hcp, hc, hpg, he]
  · rintro ⟨q, hq⟩ hcp hc hpg he hcols
    rw [runSetup, hq, hcp, hc, hpg, he, hcols]
  · intro cols h
    rw [runSetup] at h
    cases hq : env.queryArg with
    | error e2 => rw [hq] at h; simp at h
    | ok q =>
      rw [hq] at h
      cases hcp : env.setContactPoints with
      | error e2 => rw [hcp] at h; simp at h
      | ok u =>
        rw [hcp] at h
        cases hc : env.connect with
        | error e2 => rw [hc] at h; simp at h
        | ok u2 =>
          rw [hc] at h
          cases hpg : env.setPagingSize with
          | error e2 => rw [hpg] at h; simp at h
          | ok u3 =>
            rw [hpg] at h
            cases he : env.execute with
            | error e2 => rw [he] at h; simp at h
            | ok u4 => exact ⟨⟨u2, rfl⟩, u4, rfl⟩

/-- Witness for C9: an unreachable cluster makes `run` return the labeled
connection error to the caller. -/
theorem claim_C9_witness :
    runSetup ⟨.ok "SELECT 1", .ok (), .error "unreachable", .ok (), .ok (), 0,
        fun _ => .error "no such column"⟩ =
      .err (labelCass "unreachable") :=
  (claim_C9_abort_before_rows
    ⟨.ok "SELECT 1", .ok (), .error "unreachable", .ok (), .ok (), 0,
      fun _ => .error "no such column"⟩ "unreachable").1 ⟨"SELECT 1", rfl⟩ rfl rfl

/-- C2 (counterexample): conversion is not total at the column
granularity and the unrecognized-tag label is not "Unsupported type".
A TIMESTAMP column whose millisecond value was read successfully but lies
outside the representable datetime range panics (`expect("bad date")`),
aborting the whole row rather than yielding a column-scoped Error value;
and the catch-all arm labels its error "Unsupported Cassandra type". -/
theorem claim_C2_counterexample :
    rowToRecord ["good", "bad"]
        [.ok (i64Val .BIGINT 1), .ok (i64Val .TIMESTAMP 9223372036854775807)] = none ∧
    get_cassandra_value (opaqueVal .UDT) =
      some (.error ⟨"Unsupported Cassandra type", some "UDT"⟩) ∧
    "Unsupported Cassandra type" ≠ "Unsupported type" :=
  ⟨rfl, rfl, by decide⟩

/-- C2 (amended): any per-value accessor failure and any unrecognized
wire-type tag yield an Error-variant value for that single column (the
unrecognized-tag error labeled "Unsupported Cassandra type"), sibling
columns in the same row remain valid, and conversion never aborts the
row, page or stream — except that a TIMESTAMP value whose successfully
read millisecond count lies outside the representable datetime range
panics, killing the producer. -/
theorem claim_C2_amended (v : CassValue) (e : String) :
    ((v.ty = .ASCII ∨ v.ty = .TEXT ∨ v.ty = .VARCHAR ∨ v.ty = .TIMEUUID ∨
        v.ty = .INET ∨ v.ty = .DATE ∨ v.ty = .TIME) →
      v.get_string = .error e →
      get_cassandra_value v = some (.error (labelCass e))) ∧
    ((v.ty = .BIGINT ∨ v.ty = .COUNTER ∨ v.ty = .VARINT ∨ v.ty = .DURATION ∨
        v.ty = .TIMESTAMP) →
      v.get_i64 = .error e →
      get_cassandra_value v = some (.error (labelCass e))) ∧
    (v.ty = .INT → v.get_i32 = .error e →
      get_cassandra_value v = some (.error (labelCass e))) ∧
    (v.ty = .SMALL_INT → v.get_i16 = .error e →
      get_cassandra_value v = some (.error (labelCass e))) ∧
    (v.ty = .TINY_INT → v.get_i8 = .error e →
      get_cassandra_value v = some (.error (labelCass e))) ∧
    (v.ty = .DOUBLE → v.get_f64 = .error e →
      get_cassandra_value v = some (.error (labelCass e))) ∧
    (v.ty = .FLOAT → v.get_f32 = .error e →
      get_cassandra_value v = some (.error (labelCass e))) ∧
    (v.ty = .BOOLEAN → v.get_bool = .error e →
      get_cassandra_value v = some (.error (labelCass e))) ∧
    (v.ty = .DECIMAL → v.get_decimal = .error e →
      get_cassandra_value v = some (.error (labelCass e))) ∧
    ((v.ty = .BLOB ∨ v.ty = .UUID) → v.get_bytes = .error e →
      get_cassandra_value v = some (.error (labelCass e))) ∧
    ((v.ty = .LIST ∨ v.ty = .SET ∨ v.ty = .TUPLE) → v.get_set_ok = .error e →
      get_cassandra_value v = some (.error (labelCass e))) ∧
    (v.ty = .MAP → v.get_map_ok = .error e →
      get_cassandra_value v = some (.error (labelCass e))) ∧
    ((v.ty = .UNKNOWN ∨ v.ty = .CUSTOM ∨ v.ty = .UDT) →
      get_cassandra_value v =
        some (.error ⟨"Unsupported Cassandra type", some v.ty.debugFormat⟩)) ∧
    (∀ n : Int, v.ty = .TIMESTAMP → v.get_i64 = .ok n →
      fromTimestampMillis n = none → get_cassandra_value v = none) ∧
    (rowToRecord ["good", "bad"] [.ok (i64Val .BIGINT 7), .ok (opaqueVal .UDT)] =
      some [("good", .int 7),
        ("bad", .error ⟨"Unsupported Cassandra type", some "UDT"⟩)]) := by
  cases v with
  | mk ty s1 s2 s3 i64 i32 i16 i8 f64 f32 b bs so mo ch mks mvs =>
    simp only [CassValue.ty, CassValue.get_string, CassValue.get_decimal,
      CassValue.get_i64, CassValue.get_i32, CassValue.get_i16, CassValue.get_i8,
      CassValue.get_f64, CassValue.get_f32, CassValue.get_bool, CassValue.get_bytes,
      CassValue.get_set_ok, CassValue.get_map_ok]
    refine ⟨?_, ?_, ?_, ?_, ?_, ?_, ?_, ?_, ?_, ?_, ?_, ?_, ?_, ?_, ?_⟩
    · rintro (rfl | rfl | rfl | rfl | rfl | rfl | rfl) rfl <;> rfl
    · rintro (rfl | rfl | rfl | rfl | rfl) rfl <;> rfl
    · rintro rfl rfl; rfl
    · rintro rfl rfl; rfl
    · rintro rfl rfl; rfl
    · rintro rfl rfl; rfl
    · rintro rfl rfl; rfl
    · rintro rfl rfl; rfl
    · rintro rfl rfl; rfl
    · rintro (rfl | rfl) rfl <;> rfl
    · rintro (rfl | rfl | rfl) rfl <;> rfl
    · rintro rfl rfl; rfl
    · rintro (rfl | rfl | rfl) <;> rfl
    · intro n h1 h2 h3
      subst h1
      subst h2
      simp [get_cassandra_value, convert_arm, Except.mapError, h3]
    · rfl

/-- Witness for C2: a BIGINT column whose accessor fails converts to a
column-scoped Error value. -/
theorem claim_C2_witness :
    get_cassandra_value (opaqueVal .BIGINT) =
      some (.error (labelCass "wrong type")) :=
  (claim_C2_amended (opaqueVal .BIGINT) "wrong type").2.1
    (Or.inl rfl) rfl

/-- C4 (counterexample): a record can hold fewer values than there are
column descriptors. With two descriptors that share the name "a",
`Record::insert` replaces the first value instead of appending, so the
produced record holds a single value. -/
theorem claim_C4_counterexample :
    (rowToRecord ["a", "a"] [.ok (i64Val .BIGINT 1), .ok (i64Val .BIGINT 2)]).map
        List.length = some 1 ∧ (1 : Nat) ≠ 2 :=
  ⟨rfl, by decide⟩

/-- C4 (amended): every produced record holds exactly one value per
distinct column name, in descriptor order; when the column names are
pairwise distinct the record has exactly as many values as there are
descriptors, its column names are exactly the descriptor names, and each
value (a converted value or an Error variant) is present, never absent. -/
theorem claim_C4_amended (cols : List String) (row : CassRow) (vals : List NuValue)
    (hnd : cols.Nodup)
    (hv : mapMopt (colValue row) (List.range cols.length) = some vals) :
    rowToRecord cols row = some (cols.zip vals) ∧
    (cols.zip vals).length = cols.length ∧
    (cols.zip vals).map Prod.fst = cols := by
  have hl : vals.length = cols.length := by
    have h := length_of_mapM (colValue row) (List.range cols.length) vals hv
    simpa using h
  have hfst : (cols.zip vals).map Prod.fst = cols :=
    List.map_fst_zip cols vals (by omega)
  refine ⟨?_, ?_, hfst⟩
  · rw [rowToRecord, hv]
    simp only [Option.map_some']
    rw [foldl_insert_nodup (cols.zip vals) []
      (by rw [hfst]; exact hnd) (by intro p hp; simp at hp)]
    simp
  · rw [List.length_zip, hl]
    omega

/-- Witness for C4: a two-column row with distinct names produces a
record with both values present, the second a column-scoped Error. -/
theorem claim_C4_witness :
    rowToRecord ["x", "y"] [.ok (i64Val .BIGINT 1), .ok (opaqueVal .UDT)] =
      some (["x", "y"].zip
        [.int 1, .error ⟨"Unsupported Cassandra type", some "UDT"⟩]) :=
  (claim_C4_amended ["x", "y"] [.ok (i64Val .BIGINT 1), .ok (opaqueVal .UDT)]
    [.int 1, .error ⟨"Unsupported Cassandra type", some "UDT"⟩]
    (by decide) rfl).1

/-- C6: a MAP-typed value converts by recursing over its key/value pairs,
coercing every key to its string form (`get_str`, with the lossy fallback
for non-textual keys) and converting every value recursively; in
particular the map a ↦ 1, b ↦ 2 converts to a record with keys "a", "b"
mapping to Int64 1 and Int64 2. -/
theorem claim_C6_map_conversion (v : CassValue) (nvs : List NuValue)
    (hty : v.ty = .MAP) (hok : v.get_map_ok = .ok ())
    (hvs : mapMopt get_cassandra_value v.mapVals = some nvs) :
    get_cassandra_value v =
      some (.record (mkMapRecord (v.mapKeys.map keyString) nvs)) ∧
    get_cassandra_value
        (mapVal [strKeyVal "a", strKeyVal "b"] [i64Val .BIGINT 1, i64Val .BIGINT 2]) =
      some (.record [("a", .int 1), ("b", .int 2)]) := by
  constructor
  · cases v with
    | mk ty s1 s2 s3 i64 i32 i16 i8 f64 f32 b bs so mo ch mks mvs =>
      simp only [CassValue.ty] at hty
      simp only [CassValue.get_map_ok] at hok
      simp only [CassValue.mapVals] at hvs
      simp only [CassValue.mapKeys]
      subst hty
      subst hok
      simp [get_cassandra_value, convert_arm, convert_list_eq_mapM, hvs, unwrapValue,
        Except.mapError]
  · rfl

/-- Witness for C6: the concrete two-entry map converts as claimed. -/
theorem claim_C6_witness :
    get_cassandra_value
        (mapVal [strKeyVal "a", strKeyVal "b"] [i64Val .BIGINT 1, i64Val .BIGINT 2]) =
      some (.record [("a", .int 1), ("b", .int 2)]) :=
  (claim_C6_map_conversion
    (mapVal [strKeyVal "a", strKeyVal "b"] [i64Val .BIGINT 1, i64Val .BIGINT 2])
    [.int 1, .int 2] rfl rfl rfl).2

/-- C7 (counterexample): a VARINT value is converted with `get_i64` to an
Int64 value, not to a textual numeric representation. -/
theorem claim_C7_counterexample :
    get_cassandra_value (i64Val .VARINT 5) = some (.int 5) ∧
    (get_cassandra_value (i64Val .VARINT 5)).map NuValue.isString = some false :=
  ⟨rfl, rfl⟩

/-- C7 (amended): the conversion mapping table, with the single change
the counterexample forces: fixed-width integers (BIGINT, COUNTER, INT,
SMALL_INT, TINY_INT) convert to Int64, text types (ASCII, TEXT, VARCHAR)
to String, blobs to Bytes, millisecond-epoch integers to Timestamp,
booleans to Boolean, decimals to a textual numeric representation,
variable-length integers (VARINT) to Int64 via `get_i64` rather than to
text, duration encodings to Duration, and 16-byte UUID values to their
canonical hyphenated string form. -/
theorem claim_C7_amended (v : CassValue) :
    (∀ n : Int, (v.ty = .BIGINT ∨ v.ty = .COUNTER) → v.get_i64 = .ok n →
      get_cassandra_value v = some (.int n)) ∧
    (∀ n : Int, v.ty = .INT → v.get_i32 = .ok n →
      get_cassandra_value v = some (.int n)) ∧
    (∀ n : Int, v.ty = .SMALL_INT → v.get_i16 = .ok n →
      get_cassandra_value v = some (.int n)) ∧
    (∀ n : Int, v.ty = .TINY_INT → v.get_i8 = .ok n →
      get_cassandra_value v = some (.int n)) ∧
    (∀ t : String, (v.ty = .ASCII ∨ v.ty = .TEXT ∨ v.ty = .VARCHAR) →
      v.get_string = .ok t → get_cassandra_value v = some (.string t)) ∧
    (∀ b : List Nat, v.ty = .BLOB → v.get_bytes = .ok b →
      get_cassandra_value v = some (.binary b)) ∧
    (∀ n m : Int, v.ty = .TIMESTAMP → v.get_i64 = .ok n →
      fromTimestampMillis n = some m → get_cassandra_value v = some (.date m)) ∧
    (∀ c : Bool, v.ty = .BOOLEAN → v.get_bool = .ok c →
      get_cassandra_value v = some (.bool c)) ∧
    (∀ t : String, v.ty = .DECIMAL → v.get_decimal = .ok t →
      get_cassandra_value v = some (.string t)) ∧
    (∀ n : Int, v.ty = .VARINT → v.get_i64 = .ok n →
      get_cassandra_value v = some (.int n)) ∧
    (∀ n : Int, v.ty = .DURATION → v.get_i64 = .ok n →
      get_cassandra_value v = some (.duration n)) ∧
    (∀ b : List Nat, v.ty = .UUID → v.get_bytes = .ok b → b.length = 16 →
      get_cassandra_value v = some (.string (uuidToString b))) := by
  cases v with
  | mk ty s1 s2 s3 i64 i32 i16 i8 f64 f32 b bs so mo ch mks mvs =>
    simp only [CassValue.ty, CassValue.get_string, CassValue.get_decimal,
      CassValue.get_i64, CassValue.get_i32, CassValue.get_i16, CassValue.get_i8,
      CassValue.get_bool, CassValue.get_bytes]
    refine ⟨?_, ?_, ?_, ?_, ?_, ?_, ?_, ?_, ?_, ?_, ?_, ?_⟩
    · rintro n (rfl | rfl) rfl <;> rfl
    · rintro n rfl rfl; rfl
    · rintro n rfl rfl; rfl
    · rintro n rfl rfl; rfl
    · rintro t (rfl | rfl | rfl) rfl <;> rfl
    · rintro c rfl rfl; rfl
    · intro n m h1 h2 h3
      subst h1
      subst h2
      simp [get_cassandra_value, convert_arm, h3, unwrapValue, Except.mapError]
    · rintro c rfl rfl; rfl
    · rintro t rfl rfl; rfl
    · rintro n rfl rfl; rfl
    · rintro n rfl rfl; rfl
    · intro bytes h1 h2 hlen
      subst h1
      subst h2
      simp [get_cassandra_value, convert_arm, uuidFromSlice, hlen, unwrapValue,
        Except.mapError, Except.bind, Except.map]

/-- Witness for C7: a BIGINT value converts to the Int64 variant. -/
theorem claim_C7_witness :
    get_cassandra_value (i64Val .BIGINT 42) = some (.int 42) :=
  (claim_C7_amended (i64Val .BIGINT 42)).1 42 (Or.inl rfl) rfl

end CassandraQuery
